import Mathlib

/-!
Verification of the long-term memory subsystem of the character chatbot
(`character_chatbot_memory.py`, class `ChatbotMemoryManager`) against its
natural-language specification.

The persistence layer (DynamoDB tables + S3 bucket) is modelled as explicit
in-memory state (`PState`): each table is a list of records, `put` replaces
the record with the same primary key, `update` maps over the keyed record.
Fallible remote calls are modelled with `Except`/`Bool` failure flags for
the persistence adapter, and with `Option` results for the text-generation
adapter (`none` covers both transport failure and JSON-parse failure, which
the source handles in a single `try/except`).
-/

/-- JSON-style string-valued object, as an association list
(models the Python dicts `kpop_preferences`, `new_user_info`, ...). -/
abbrev StrDict := List (String × String)

/-- `d.get(k)` on a string dict. -/
def dictGet (d : StrDict) (k : String) : Option String :=
  (d.find? (fun kv => kv.1 == k)).map (fun kv => kv.2)

/-- Python truthiness of `d.get(k)`: key present with a non-empty value. -/
def dictValTruthy (d : StrDict) (k : String) : Bool :=
  match dictGet d k with
  | none => false
  | some v => !v.isEmpty

/-- Python truthiness of an optional string (`None` and `""` are falsy). -/
def truthyStr : Option String → Bool
  | none => false
  | some s => !s.isEmpty

/-- Python truthiness of an optional list (`None` and `[]` are falsy). -/
def truthyList {α : Type} : Option (List α) → Bool
  | none => false
  | some l => !l.isEmpty

/-- One row of the Users table (`CharacterChatbot-Users`).
Fields as created by `get_or_create_user`; `gender` is written later by
`process_profile_completion` (empty string models the absent attribute);
`total_sessions` is `Option` to model `if_not_exists` semantics. -/
structure UserProfile where
  user_id : String
  email : String
  display_name : String
  nickname : String
  birthday : String
  interests : List String
  kpop_preferences : StrDict
  preferred_topics : List String
  gender : String
  onboarding_complete : Bool
  onboarding_step : Int
  created_at : String
  updated_at : String
  last_login_at : String
  total_sessions : Option Int
deriving Repr, DecidableEq

/-- One row of the Memories table (`CharacterChatbot-Memories`),
as written by `save_conversation` step 4. -/
structure MemoryFact where
  user_id : String
  memory_id : String
  character : String
  category : String
  content : String
  importance : Int
  source_conversation : String
  created_at : String
  last_referenced : String
  reference_count : Int
  active : Bool
deriving Repr, DecidableEq

/-- One row of the Conversations table (`CharacterChatbot-Conversations`),
as written by `save_conversation` step 3. -/
structure ConvRecord where
  user_id : String
  conversation_id : String
  character : String
  session_start : String
  session_end : String
  message_count : Nat
  summary : String
  keywords : List String
  user_sentiment : String
  topics_discussed : List String
  s3_log_path : String
  new_user_info : StrDict
deriving Repr, DecidableEq

/-- One chat turn as passed to the save pipeline. -/
structure Message where
  role : String
  content : String
  timestamp : String
  selected_emotion : Option String
deriving Repr, DecidableEq

/-- The raw-transcript JSON blob written to S3 under
`chat-logs/{user_id}/{conversation_id}.json`. -/
structure LogData where
  user_id : String
  character : String
  session_start : String
  session_end : String
  message_count : Nat
  messages : List Message
deriving Repr, DecidableEq

/-- One entry of the `memories` list of an extraction result
(all fields read through `.get` with defaults in the source). -/
structure ExtractedMemory where
  character : Option String
  category : Option String
  content : Option String
  importance : Option Int
deriving Repr, DecidableEq

/-- Parsed JSON result of the single extraction call
(`_extract_all_from_conversation`); every key is optional because the
source reads them through `.get` with defaults. -/
structure ExtractionResult where
  summary : Option String
  keywords : Option (List String)
  user_sentiment : Option String
  new_user_info : Option StrDict
  memories : Option (List ExtractedMemory)
deriving Repr, DecidableEq

/-- The zeroed fallback structure returned by
`_extract_all_from_conversation` on any transport or parse failure. -/
def zeroedExtraction : ExtractionResult :=
  { summary := some ""
  , keywords := some []
  , user_sentiment := some "neutral"
  , new_user_info := some []
  , memories := some [] }

/-- `_extract_all_from_conversation`: the generation adapter either yields a
parsed JSON object (`some r`) or fails (transport error or non-JSON text,
`none`), in which case the zeroed structure is returned. -/
def extractAllFromConversation (adapter : Option ExtractionResult) : ExtractionResult :=
  match adapter with
  | some r => r
  | none => zeroedExtraction

/-- Parsed JSON result of the onboarding judgment call
(`ONBOARDING_EXTRACTION_PROMPT`). -/
structure OnbExtraction where
  nickname : Option String
  birthday : Option String
  interests : Option (List String)
  kpop_preferences : Option StrDict
  preferred_topics : Option (List String)
  step_complete : Bool
deriving Repr, DecidableEq

/-- Parsed JSON result of the profile-completion judgment call
(`PROFILE_COMPLETION_EXTRACTION_PROMPT`). -/
structure GenderExtraction where
  gender : Option String
  confidence : Option String
deriving Repr, DecidableEq

/-- The whole persistence adapter: three DynamoDB tables, the S3 bucket,
and one failure flag per table/bucket (a `true` flag makes every call on
that table raise). -/
structure PState where
  users : List UserProfile
  conversations : List ConvRecord
  memories : List MemoryFact
  blobs : List (String × LogData)
  usersFail : Bool
  convFail : Bool
  memFail : Bool
  s3Fail : Bool
deriving Repr

/-- A healthy, empty persistence layer. -/
def emptyState : PState :=
  { users := [], conversations := [], memories := [], blobs := []
  , usersFail := false, convFail := false, memFail := false, s3Fail := false }

/-- The update dict passed to `update_user_profile` (each key optional:
`none` means the key is not in the dict). -/
structure ProfileUpdates where
  nickname : Option String
  birthday : Option String
  interests : Option (List String)
  kpop_preferences : Option StrDict
  preferred_topics : Option (List String)
  gender : Option String
  onboarding_step : Option Int
  onboarding_complete : Option Bool
deriving Repr, DecidableEq

/-- The empty update dict. -/
def emptyUpdates : ProfileUpdates :=
  { nickname := none, birthday := none, interests := none
  , kpop_preferences := none, preferred_topics := none, gender := none
  , onboarding_step := none, onboarding_complete := none }

/-- Python truthiness of the update dict (`if not updates: return`):
true exactly when no key is present. -/
def ProfileUpdates.isEmpty (u : ProfileUpdates) : Bool :=
  u.nickname.isNone && u.birthday.isNone && u.interests.isNone
    && u.kpop_preferences.isNone && u.preferred_topics.isNone && u.gender.isNone
    && u.onboarding_step.isNone && u.onboarding_complete.isNone

/-- Apply an update dict to one profile row (`SET k = v` for every present
key, plus `updated_at = now` which `update_user_profile` always adds). -/
def applyProfileUpdates (p : UserProfile) (u : ProfileUpdates) (now : String) : UserProfile :=
  { p with
    nickname := u.nickname.getD p.nickname
  , birthday := u.birthday.getD p.birthday
  , interests := u.interests.getD p.interests
  , kpop_preferences := u.kpop_preferences.getD p.kpop_preferences
  , preferred_topics := u.preferred_topics.getD p.preferred_topics
  , gender := u.gender.getD p.gender
  , onboarding_step := u.onboarding_step.getD p.onboarding_step
  , onboarding_complete := u.onboarding_complete.getD p.onboarding_complete
  , updated_at := now }

/-- `update_user_profile`: no-op on an empty dict, otherwise a keyed
`update_item` on the Users table. -/
def updateUserProfileTable (users : List UserProfile) (user_id : String)
    (u : ProfileUpdates) (now : String) : List UserProfile :=
  if u.isEmpty then users
  else users.map (fun p => if p.user_id == user_id then applyProfileUpdates p u now else p)

/-- `get_or_create_user`: point lookup; on hit, a keyed update bumps
`total_sessions` (with `if_not_exists` default 0) and sets `last_login_at`,
but the pre-update item is returned; on miss, a fresh profile is written
and returned. Result: (returned profile, Users table after the call). -/
def getOrCreateUser (users : List UserProfile)
    (user_id email display_name now : String) : UserProfile × List UserProfile :=
  match users.find? (fun p => p.user_id == user_id) with
  | some item =>
      (item,
       users.map (fun p =>
         if p.user_id == user_id then
           { p with last_login_at := now, total_sessions := some (p.total_sessions.getD 0 + 1) }
         else p))
  | none =>
      let user : UserProfile :=
        { user_id := user_id, email := email, display_name := display_name
        , nickname := "", birthday := "", interests := [], kpop_preferences := []
        , preferred_topics := [], gender := ""
        , onboarding_complete := false, onboarding_step := 0
        , created_at := now, updated_at := now, last_login_at := now
        , total_sessions := some 1 }
      (user, user :: users.filter (fun p => !(p.user_id == user_id)))

/-- `get_user_profile`: an uncaught point lookup on the Users table
(the source wraps it in no `try/except`, so a raised persistence error
propagates to the caller). -/
def getUserProfile (s : PState) (user_id : String) : Except Unit (Option UserProfile) :=
  if s.usersFail then Except.error ()
  else Except.ok (s.users.find? (fun p => p.user_id == user_id))

/-- `ONBOARDING_STEPS` keys 0-4, each mapped to the profile field it
collects (`None` models `step not in ONBOARDING_STEPS`). -/
def onboardingStepField (s : Int) : Option String :=
  if s = 0 then some "nickname"
  else if s = 1 then some "birthday"
  else if s = 2 then some "interests"
  else if s = 3 then some "kpop_preferences"
  else if s = 4 then some "preferred_topics"
  else none

/-- `process_onboarding_response`: dispatches only for steps 0-4; on
judgment failure (`none`: transport error or non-JSON) or a falsy
`step_complete` the state is untouched and the current step returned;
otherwise the current step's field is written when the extraction carries
a truthy value for it, the step counter is advanced by one, and
`onboarding_complete` is set once the new step exceeds 4. -/
def processOnboardingResponse (users : List UserProfile) (user_id : String)
    (judgment : Option OnbExtraction) (current_step : Int) (now : String) :
    Int × List UserProfile :=
  match onboardingStepField current_step with
  | none => (current_step, users)
  | some field =>
    match judgment with
    | none => (current_step, users)
    | some extracted =>
      if !extracted.step_complete then (current_step, users)
      else
        let updates0 : ProfileUpdates :=
          if field == "nickname" && truthyStr extracted.nickname then
            { emptyUpdates with nickname := extracted.nickname }
          else if field == "birthday" && truthyStr extracted.birthday then
            { emptyUpdates with birthday := extracted.birthday }
          else if field == "interests" && truthyList extracted.interests then
            { emptyUpdates with interests := extracted.interests }
          else if field == "kpop_preferences" && truthyList extracted.kpop_preferences then
            { emptyUpdates with kpop_preferences := extracted.kpop_preferences }
          else if field == "preferred_topics" && truthyList extracted.preferred_topics then
            { emptyUpdates with preferred_topics := extracted.preferred_topics }
          else emptyUpdates
        let new_step := current_step + 1
        let updates : ProfileUpdates :=
          { updates0 with
            onboarding_step := some new_step
          , onboarding_complete := if 4 < new_step then some true else none }
        (new_step, updateUserProfileTable users user_id updates now)

/-- A sequence of `process_onboarding_response` calls, threading the step
counter and the Users table (as the chat loop does each turn). -/
def runOnboarding (users : List UserProfile) (user_id : String)
    (js : List (Option OnbExtraction)) (current_step : Int) (now : String) :
    Int × List UserProfile :=
  js.foldl (fun acc j => processOnboardingResponse acc.2 user_id j acc.1 now)
    (current_step, users)

/-- S3 `put_object`: full overwrite of the object at the given key. -/
def putBlob (blobs : List (String × LogData)) (key : String) (d : LogData) :
    List (String × LogData) :=
  (key, d) :: blobs.filter (fun kv => !(kv.1 == key))

/-- DynamoDB `put_item` on the Conversations table: replaces the item with
the same (user_id, conversation_id) primary key. -/
def putConv (tbl : List ConvRecord) (r : ConvRecord) : List ConvRecord :=
  r :: tbl.filter (fun c => !(c.user_id == r.user_id && c.conversation_id == r.conversation_id))

/-- DynamoDB `put_item` on the Memories table: replaces the item with the
same (user_id, memory_id) primary key. -/
def putMem (tbl : List MemoryFact) (it : MemoryFact) : List MemoryFact :=
  it :: tbl.filter (fun m => !(m.user_id == it.user_id && m.memory_id == it.memory_id))

/-- DynamoDB point lookup on the Conversations table. -/
def findConv (tbl : List ConvRecord) (user_id conversation_id : String) :
    Option ConvRecord :=
  tbl.find? (fun c => c.user_id == user_id && c.conversation_id == conversation_id)

/-- S3 point lookup. -/
def lookupBlob (blobs : List (String × LogData)) (key : String) : Option LogData :=
  (blobs.find? (fun kv => kv.1 == key)).map (fun kv => kv.2)

/-- Build one Memories-table item from one extracted memory
(`save_conversation` step 4, loop body), with the source's `.get`
defaults: scope defaults to "global", category to "fact", content to "",
importance to 3; the id suffix models `uuid.uuid4().hex[:12]`. -/
def mkMemItem (user_id conversation_id now suffix : String)
    (em : ExtractedMemory) : MemoryFact :=
  let memory_char := em.character.getD "global"
  { user_id := user_id
  , memory_id := memory_char ++ "#" ++ suffix
  , character := memory_char
  , category := em.category.getD "fact"
  , content := em.content.getD ""
  , importance := em.importance.getD 3
  , source_conversation := conversation_id
  , created_at := now
  , last_referenced := now
  , reference_count := 0
  , active := true }

/-- The Memories-table items built by `save_conversation` step 4, one per
extracted memory; `uuidSupply i` is the i-th uuid hex drawn by the loop. -/
def buildMemItems (user_id conversation_id now : String) (uuidSupply : Nat → String) :
    Nat → List ExtractedMemory → List MemoryFact
  | _, [] => []
  | i, em :: rest =>
      mkMemItem user_id conversation_id now (uuidSupply i) em
        :: buildMemItems user_id conversation_id now uuidSupply (i + 1) rest

/-- `save_conversation`: no-op below 2 messages, otherwise (1) one
extraction call, (2) S3 transcript put, (3) Conversations put,
(4) one Memories put per extracted memory, (5) profile merge when
`new_user_info` is truthy — each write best-effort (a raised persistence
error is caught and the pipeline continues, modelled by the per-table
failure flags skipping the write). -/
def saveConversation (s : PState) (user_id character : String)
    (messages : List Message) (session_start now : String)
    (adapter : Option ExtractionResult) (uuidSupply : Nat → String) : PState :=
  if messages.length < 2 then s
  else
    let conversation_id := character ++ "#" ++ session_start
    let extraction := extractAllFromConversation adapter
    let s3_log_path := "chat-logs/" ++ user_id ++ "/" ++ conversation_id ++ ".json"
    let log_data : LogData :=
      { user_id := user_id, character := character, session_start := session_start
      , session_end := now, message_count := messages.length, messages := messages }
    let s1 := if s.s3Fail then s else { s with blobs := putBlob s.blobs s3_log_path log_data }
    let conv_item : ConvRecord :=
      { user_id := user_id
      , conversation_id := conversation_id
      , character := character
      , session_start := session_start
      , session_end := now
      , message_count := messages.length
      , summary := extraction.summary.getD ""
      , keywords := extraction.keywords.getD []
      , user_sentiment := extraction.user_sentiment.getD "neutral"
      , topics_discussed := extraction.keywords.getD []
      , s3_log_path := s3_log_path
      , new_user_info := extraction.new_user_info.getD [] }
    let s2 := if s.convFail then s1 else { s1 with conversations := putConv s1.conversations conv_item }
    let memItems := buildMemItems user_id conversation_id now uuidSupply 0 (extraction.memories.getD [])
    let s3 := if s.memFail then s2 else { s2 with memories := memItems.foldl putMem s2.memories }
    let new_info := extraction.new_user_info.getD []
    let profile_updates :=
      let u0 := emptyUpdates
      let u1 := if dictValTruthy new_info "favorite_group" then { u0 with kpop_preferences := some new_info } else u0
      let u2 := if dictValTruthy new_info "birthday" then { u1 with birthday := dictGet new_info "birthday" } else u1
      if dictValTruthy new_info "nickname" then { u2 with nickname := dictGet new_info "nickname" } else u2
    if !new_info.isEmpty && !profile_updates.isEmpty then
      { s3 with users := updateUserProfileTable s3.users user_id profile_updates now }
    else s3

/-- Keyed `update_item` bumping one memory's reference metadata
(`_get_top_memories`, loop body). -/
def refUpdate (tbl : List MemoryFact) (user_id memory_id now : String) : List MemoryFact :=
  tbl.map (fun f =>
    if f.user_id == user_id && f.memory_id == memory_id then
      { f with reference_count := f.reference_count + 1, last_referenced := now }
    else f)

/-- `_get_top_memories`: queries active global-scope and character-scope
facts for the user, concatenates, stable-sorts descending by importance,
truncates to `limit`, bumps reference metadata of exactly the truncated
slice, and returns the slice (pre-update values). Any raised persistence
error is caught and yields the empty list with the table untouched. -/
def getTopMemories (s : PState) (user_id character : String) (limit : Nat) (now : String) :
    List MemoryFact × PState :=
  if s.memFail then ([], s)
  else
    let global_mems := s.memories.filter
      (fun m => m.user_id == user_id && m.character == "global" && m.active)
    let char_mems := s.memories.filter
      (fun m => m.user_id == user_id && m.character == character && m.active)
    let all_mems := (global_mems ++ char_mems).mergeSort
      (fun a b => decide (b.importance ≤ a.importance))
    let top := all_mems.take limit
    let mems' := top.foldl (fun t m => refUpdate t user_id m.memory_id now) s.memories
    (top, { s with memories := mems' })

/-- `_get_recent_summaries`: index query on the Conversations table for the
user, newest first, with DynamoDB's `Limit` applied before the character
filter; any raised persistence error is caught and yields the empty list. -/
def getRecentSummaries (s : PState) (user_id character : String) (limit : Nat) :
    List ConvRecord :=
  if s.convFail then []
  else
    ((((s.conversations.filter (fun c => c.user_id == user_id)).mergeSort
        (fun a b => decide (b.session_start ≤ a.session_start))).take limit).filter
      (fun c => c.character == character))

/-- Python string slice `s[:n]` (by code point, like `len`). -/
def pySlice (s : String) (n : Nat) : String := String.mk (s.data.take n)

/-- The truncation marker appended by `build_memory_context`. -/
def truncMarker : String := "\n... (일부 생략)"

/-- The profile section lines of `build_memory_context` (only truthy
fields are rendered; gender is rendered as a localized label). -/
def profileLines (p : UserProfile) : List String :=
  let l1 := if !p.nickname.isEmpty then ["이름/닉네임: " ++ p.nickname] else []
  let l2 := l1 ++ (if !p.gender.isEmpty then
    ["성별: " ++ (if p.gender == "male" then "남성" else "여성")] else [])
  let l3 := l2 ++ (if !p.birthday.isEmpty then ["생년월일: " ++ p.birthday] else [])
  let l4 := l3 ++ (if !p.interests.isEmpty then
    ["관심사: " ++ String.intercalate ", " p.interests] else [])
  let l5 := l4 ++ p.kpop_preferences.filterMap (fun kv =>
    if !kv.2.isEmpty then some ("케이팝 " ++ kv.1 ++ ": " ++ kv.2) else none)
  l5 ++ (if !p.preferred_topics.isEmpty then
    ["선호 주제: " ++ String.intercalate ", " p.preferred_topics] else [])

/-- The memory section lines of `build_memory_context`: importance-≥5
facts first under the directive heading, the rest under the generic
heading. -/
def memLines (memories : List MemoryFact) : List String :=
  let critical := memories.filter (fun m => decide (5 ≤ m.importance))
  let normal := memories.filter (fun m => decide (m.importance < 5))
  (if !critical.isEmpty then
    ["★★★ 최우선 행동 지시 (반드시 따를 것) ★★★"]
      ++ critical.map (fun m => "  → " ++ m.content) ++ [""]
   else [])
  ++ (if !normal.isEmpty then
    ["[참고 기억]"] ++ normal.map (fun m => "- [" ++ m.category ++ "] " ++ m.content)
   else [])

/-- The `parts` list of `build_memory_context`: profile section, memory
section and recent-summaries section, each appended only when non-empty. -/
def contextParts (profile : Option UserProfile) (memories : List MemoryFact)
    (summaries : List ConvRecord) : List String :=
  let parts1 : List String :=
    match profile with
    | none => []
    | some p =>
      if !(profileLines p).isEmpty then
        ["[사용자 프로필]\n" ++ String.intercalate "\n" (profileLines p)]
      else []
  let parts2 := parts1 ++ (if !memories.isEmpty then
    ["[기억하고 있는 정보]\n" ++ String.intercalate "\n" (memLines memories)] else [])
  let sum_lines := (summaries.filter (fun c => !c.summary.isEmpty)).map
    (fun c => "- (" ++ pySlice c.session_start 10 ++ ") " ++ c.summary)
  parts2 ++ (if !sum_lines.isEmpty then
    ["[이전 대화 요약]\n" ++ String.intercalate "\n" sum_lines] else [])

/-- The pure tail of `build_memory_context`: join the parts and hard-cap
at the 4000-character budget, appending the truncation marker. -/
def assembleContext (profile : Option UserProfile) (memories : List MemoryFact)
    (summaries : List ConvRecord) : String :=
  let parts := contextParts profile memories summaries
  if parts.isEmpty then ""
  else
    let context := String.intercalate "\n\n" parts
    if 4000 < context.length then pySlice context 4000 ++ truncMarker else context

/-- `build_memory_context`: profile lookup (uncaught), ranked memories
(side-effecting), recent summaries, then assembly. Returns the context
string and the persistence state after the ranker's metadata bumps. -/
def buildMemoryContext (s : PState) (user_id character now : String) :
    Except Unit (String × PState) :=
  match getUserProfile s user_id with
  | Except.error e => Except.error e
  | Except.ok profile =>
    let tm := getTopMemories s user_id character 15 now
    let summaries := getRecentSummaries tm.2 user_id character 5
    Except.ok (assembleContext profile tm.1 summaries, tm.2)

/-- The per-step Korean collection instructions of `ONBOARDING_STEPS`. -/
def onboardingStepInstruction : Int → String
  | 0 => "사용자에게 자기소개를 하면서 사용자의 이름이나 닉네임을 자연스럽게 물어보세요."
  | 1 => "대화 흐름에 맞춰 사용자의 생년월일을 자연스럽게 물어보세요."
  | 2 => "사용자가 좋아하는 것이나 취미를 자연스럽게 물어보세요."
  | 3 => "좋아하는 케이팝 그룹, 멤버, 장르 등 케이팝 취향을 물어보세요."
  | 4 => "앞으로 어떤 이야기를 하고 싶은지 자연스럽게 물어보세요. 이것이 마지막 질문입니다."
  | _ => ""

/-- `get_onboarding_prompt_addition`: empty for a missing profile, a
complete onboarding, or an out-of-range step; the profile lookup itself is
uncaught. -/
def getOnboardingPromptAddition (s : PState) (user_id : String) :
    Except Unit String :=
  match getUserProfile s user_id with
  | Except.error e => Except.error e
  | Except.ok none => Except.ok ""
  | Except.ok (some profile) =>
    if profile.onboarding_complete then Except.ok ""
    else
      match onboardingStepField profile.onboarding_step with
      | none => Except.ok ""
      | some _ =>
        Except.ok ("\n\n[온보딩 지시]\n이 사용자는 아직 프로필 수집이 완료되지 않았습니다. (현재 단계: "
          ++ toString profile.onboarding_step
          ++ "/4)\n대화 중 자연스럽게 다음 정보를 수집해주세요: "
          ++ onboardingStepInstruction profile.onboarding_step
          ++ "\n너무 직접적으로 묻지 말고, 대화 흐름에 녹여서 물어보세요.")

/-- The single registered field of `PROFILE_COMPLETION_FIELDS` (gender). -/
def genderInstruction : String :=
  "대화 흐름에 맞춰 사용자의 성별을 자연스럽게 파악하세요. 직접 묻기보다는 '오빠라고 불러도 될까요?' 같은 자연스러운 방식으로 확인하세요."

/-- `get_profile_completion_prompt`: instruction block for the still-unset
registered fields; empty when none is missing; profile lookup uncaught. -/
def getProfileCompletionPrompt (s : PState) (user_id : String) :
    Except Unit String :=
  match getUserProfile s user_id with
  | Except.error e => Except.error e
  | Except.ok none => Except.ok ""
  | Except.ok (some profile) =>
    let missing := if profile.gender.isEmpty then [genderInstruction] else []
    if missing.isEmpty then Except.ok ""
    else
      Except.ok ("\n\n[프로필 보완 지시]\n아직 파악하지 못한 사용자 정보가 있습니다. 대화 중 자연스럽게 확인해주세요:\n"
        ++ String.intercalate "\n" (missing.map (fun m => "- " ++ m)))

/-- `process_profile_completion`: writes gender only on a parsed
high-confidence male/female extraction for a still-missing field;
judgment failure is caught; the profile lookup is uncaught. -/
def processProfileCompletion (s : PState) (user_id : String)
    (judgment : Option GenderExtraction) (now : String) : Except Unit PState :=
  match getUserProfile s user_id with
  | Except.error e => Except.error e
  | Except.ok none => Except.ok s
  | Except.ok (some profile) =>
    let missing_fields := if profile.gender.isEmpty then ["gender"] else []
    if missing_fields.isEmpty then Except.ok s
    else
      match judgment with
      | none => Except.ok s
      | some extracted =>
        if !(extracted.confidence == some "high") then Except.ok s
        else
          let updates :=
            if (extracted.gender == some "male" || extracted.gender == some "female")
                && missing_fields.contains "gender" then
              { emptyUpdates with gender := extracted.gender }
            else emptyUpdates
          if updates.isEmpty then Except.ok s
          else Except.ok { s with users := updateUserProfileTable s.users user_id updates now }

/-- Reference-metadata bump applied by `_get_top_memories` to one fact. -/
def bumpRef (now : String) (f : MemoryFact) : MemoryFact :=
  { f with reference_count := f.reference_count + 1, last_referenced := now }

/-- Pointwise effect of one keyed `update_item` of `_get_top_memories`. -/
def refStep (user_id now memory_id : String) (f : MemoryFact) : MemoryFact :=
  if f.user_id == user_id && f.memory_id == memory_id then bumpRef now f else f

/-- Row-wise preservation of the `onboarding_complete` flag: the table
keeps its shape and no row's flag is ever reset from true. -/
def flagsPreserved (users users' : List UserProfile) : Prop :=
  users'.length = users.length ∧
  ∀ i (h : i < users.length) (h' : i < users'.length),
    (users.get ⟨i, h⟩).onboarding_complete = true →
    (users'.get ⟨i, h'⟩).onboarding_complete = true

/-- Fixture: a two-turn session. -/
def msgs2 : List Message :=
  [{ role := "user", content := "hi", timestamp := "t1", selected_emotion := none },
   { role := "assistant", content := "hello", timestamp := "t2", selected_emotion := none }]

/-- Fixture: the same session after one more accrued turn. -/
def msgs3 : List Message := msgs2 ++
  [{ role := "user", content := "bye", timestamp := "t3", selected_emotion := none }]

/-- Fixture: a fresh profile as `get_or_create_user` creates it. -/
def p0 : UserProfile :=
  { user_id := "u1", email := "e", display_name := "d", nickname := "", birthday := ""
  , interests := [], kpop_preferences := [], preferred_topics := [], gender := ""
  , onboarding_complete := false, onboarding_step := 0
  , created_at := "t0", updated_at := "t0", last_login_at := "t0", total_sessions := some 1 }

/-- Fixture: a parsed onboarding judgment that says the step is complete
but carries a null value for every field. -/
def ext0 : OnbExtraction :=
  { nickname := none, birthday := none, interests := none
  , kpop_preferences := none, preferred_topics := none, step_complete := true }

/-- Fixture: a parsed extraction carrying one memory whose importance is
the out-of-range integer 7. -/
def extImp7 : ExtractionResult :=
  { summary := some "s", keywords := some [], user_sentiment := some "positive"
  , new_user_info := some []
  , memories := some [{ character := none, category := none
                      , content := some "x", importance := some 7 }] }

/-- Fixture: a persistence layer whose Users table raises on every call. -/
def failUsersState : PState := { emptyState with usersFail := true }

/-- Fixture: a store holding one active character-scoped memory fact. -/
def fact9 : MemoryFact :=
  { user_id := "u1", memory_id := "rumi#aaaa", character := "rumi"
  , category := "fact", content := "c", importance := 4
  , source_conversation := "rumi#s0", created_at := "t0", last_referenced := "t0"
  , reference_count := 0, active := true }

/-- Fixture: a one-fact persistence layer for the ranker. -/
def st9 : PState := { emptyState with memories := [fact9] }

/-- Fixture: a persistence layer whose Memories and Conversations tables
raise on every call (the Users table is healthy). -/
def failQueriesState : PState := { emptyState with memFail := true, convFail := true }

/-- Fixture: a stored conversation record under the key (u1, rumi#s0). -/
def convA : ConvRecord :=
  { user_id := "u1", conversation_id := "rumi#s0", character := "rumi"
  , session_start := "s0", session_end := "t3", message_count := 2
  , summary := "old", keywords := [], user_sentiment := "neutral"
  , topics_discussed := [], s3_log_path := "chat-logs/u1/rumi#s0.json"
  , new_user_info := [] }

/-- Fixture: a persistence layer holding just `convA`. -/
def stA : PState := { emptyState with conversations := [convA] }

/-- Fixture: a parsed onboarding judgment as in spec Scenario B: the step
is complete and a nickname was provided. -/
def extMina : OnbExtraction :=
  { nickname := some "Mina", birthday := none, interests := none
  , kpop_preferences := none, preferred_topics := none, step_complete := true }

/-- Fixture: a parsed extraction carrying one memory with in-range
importance 4. -/
def extImp4 : ExtractionResult :=
  { summary := some "s", keywords := some [], user_sentiment := some "neutral"
  , new_user_info := some []
  , memories := some [{ character := none, category := none
                      , content := some "x", importance := some 4 }] }

/-- Claim C10: for an existing user (with a stored session counter n),
`get_or_create_user` bumps the stored `total_sessions` to n+1 and sets
`last_login_at` in the store, but returns the pre-update record, whose
`total_sessions` is one less than the value stored after the call. -/
theorem c10_get_or_create_stale_return (users : List UserProfile)
    (uid email dn now : String) (p : UserProfile) (n : Int)
    (hnd : (users.map UserProfile.user_id).Nodup)
    (hfind : users.find? (fun q => q.user_id == uid) = some p)
    (hts : p.total_sessions = some n) :
    (getOrCreateUser users uid email dn now).1 = p ∧
    ∀ q ∈ (getOrCreateUser users uid email dn now).2, q.user_id = uid →
      q.last_login_at = now ∧ q.total_sessions = some (n + 1) := by
  have hp_mem : p ∈ users := List.mem_of_find?_eq_some hfind
  have hp_id : p.user_id = uid := by
    have := List.find?_some hfind
    exact beq_iff_eq.mp this
  unfold getOrCreateUser
  rw [hfind]
  refine ⟨rfl, ?_⟩
  intro q hq hqid
  rcases List.mem_map.mp hq with ⟨orig, horig, hq_eq⟩
  by_cases hmatch : orig.user_id = uid
  · have hb : (orig.user_id == uid) = true := beq_iff_eq.mpr hmatch
    rw [if_pos hb] at hq_eq
    have horig_p : orig = p := by
      apply List.inj_on_of_nodup_map hnd horig hp_mem
      rw [hmatch, hp_id]
    subst hq_eq
    subst horig_p
    simp [hts]
  · have hb : ¬((orig.user_id == uid) = true) := by
      simp [hmatch]
    rw [if_neg hb] at hq_eq
    subst hq_eq
    exact absurd hqid hmatch

theorem c10_get_or_create_stale_return_witness :
    (getOrCreateUser [p0] "u1" "e" "d" "t5").1 = p0 ∧
    ∀ q ∈ (getOrCreateUser [p0] "u1" "e" "d" "t5").2, q.user_id = "u1" →
      q.last_login_at = "t5" ∧ q.total_sessions = some (1 + 1) :=
  c10_get_or_create_stale_return [p0] "u1" "e" "d" "t5" p0 1
    (by decide) (by decide) (by decide)

/-- Claim C5: the list returned by the memory ranker `_get_top_memories`
is sorted in non-increasing order of importance and its length never
exceeds `limit` (proved for every store, in particular for stores of
facts with pairwise distinct importances). -/
theorem c5_ranker_sorted_and_bounded (s : PState) (uid char : String)
    (limit : Nat) (now : String) :
    (getTopMemories s uid char limit now).1.Pairwise
      (fun a b => b.importance ≤ a.importance) ∧
    (getTopMemories s uid char limit now).1.length ≤ limit := by
  unfold getTopMemories
  by_cases hf : s.memFail
  · simp [hf]
  · rw [if_neg hf]
    constructor
    · have hsorted : ((s.memories.filter
          (fun m => m.user_id == uid && m.character == "global" && m.active)
            ++ s.memories.filter
          (fun m => m.user_id == uid && m.character == char && m.active)).mergeSort
            (fun a b => decide (b.importance ≤ a.importance))).Pairwise
          (fun a b => (decide (b.importance ≤ a.importance)) = true) := by
        apply List.sorted_mergeSort
        · intro a b c hab hbc
          simp only [decide_eq_true_eq] at hab hbc ⊢
          exact le_trans hbc hab
        · intro a b
          simp only [Bool.or_eq_true, decide_eq_true_eq]
          exact le_total b.importance a.importance
      have htake := List.Pairwise.sublist (List.take_sublist limit _) hsorted
      exact htake.imp (by intro a b h; exact decide_eq_true_eq.mp h)
    · show (List.take limit _).length ≤ limit
      rw [List.length_take]
      exact Nat.min_le_left _ _

/-- Claim C1 (counterexample): with a Users table that raises, the
persistence-layer exception of the profile lookup propagates uncaught out
of `build_memory_context` (the source's `get_user_profile` has no
`try/except`), so the claim that no exception ever leaves the subsystem's
exposed functions is false. -/
theorem c1_profile_error_propagates :
    buildMemoryContext failUsersState "u1" "rumi" "t0" = Except.error () := rfl

/-- Claim C1 (amended): each exposed query-path function raises exactly
when the profile lookup raises (memory-retrieval and summary-retrieval
exceptions are caught inside the subsystem and degrade to empty lists,
leaving the store untouched). -/
theorem c1_query_failure_semantics (s : PState) (uid char now : String)
    (j : Option GenderExtraction) :
    ((buildMemoryContext s uid char now).isOk = !s.usersFail) ∧
    ((getOnboardingPromptAddition s uid).isOk = !s.usersFail) ∧
    ((getProfileCompletionPrompt s uid).isOk = !s.usersFail) ∧
    ((processProfileCompletion s uid j now).isOk = !s.usersFail) ∧
    (s.memFail = true → getTopMemories s uid char 15 now = ([], s)) ∧
    (s.convFail = true → getRecentSummaries s uid char 5 = []) := by
  cases husers : s.usersFail
  · refine ⟨?_, ?_, ?_, ?_, ?_, ?_⟩
    · simp only [buildMemoryContext, getUserProfile, husers, Bool.not_false]
      repeat' split
      all_goals first | rfl | simp_all
    · simp only [getOnboardingPromptAddition, getUserProfile, husers, Bool.not_false]
      repeat' split
      all_goals first | rfl | simp_all
    · simp only [getProfileCompletionPrompt, getUserProfile, husers, Bool.not_false]
      repeat' split
      all_goals first | rfl | simp_all
    · simp only [processProfileCompletion, getUserProfile, husers, Bool.not_false]
      repeat' split
      all_goals first | rfl | simp_all
    · intro hm; simp [getTopMemories, hm]
    · intro hc; simp [getRecentSummaries, hc]
  · refine ⟨?_, ?_, ?_, ?_, ?_, ?_⟩
    · simp [buildMemoryContext, getUserProfile, husers]
      rfl
    · simp [getOnboardingPromptAddition, getUserProfile, husers]
      rfl
    · simp [getProfileCompletionPrompt, getUserProfile, husers]
      rfl
    · simp [processProfileCompletion, getUserProfile, husers]
      rfl
    · intro hm; simp [getTopMemories, hm]
    · intro hc; simp [getRecentSummaries, hc]

theorem c1_query_failure_semantics_witness :
    ((buildMemoryContext failQueriesState "u1" "rumi" "t0").isOk
        = !failQueriesState.usersFail) ∧
    (getTopMemories failQueriesState "u1" "rumi" 15 "t0" = ([], failQueriesState)) ∧
    (getRecentSummaries failQueriesState "u1" "rumi" 5 = []) :=
  ⟨(c1_query_failure_semantics failQueriesState "u1" "rumi" "t0" none).1,
   (c1_query_failure_semantics failQueriesState "u1" "rumi" "t0" none).2.2.2.2.1 rfl,
   (c1_query_failure_semantics failQueriesState "u1" "rumi" "t0" none).2.2.2.2.2 rfl⟩

theorem pySlice_length_le (s : String) (n : Nat) : (pySlice s n).length ≤ n := by
  show (s.data.take n).length ≤ n
  rw [List.length_take]
  exact Nat.min_le_left _ _

/-- Claim C8: the string built by `build_memory_context` never exceeds the
4000-character budget plus the truncation marker, and is empty when no
section (profile, memories, summaries) has content. -/
theorem c8_context_bounded (profile : Option UserProfile)
    (memories : List MemoryFact) (summaries : List ConvRecord)
    (s : PState) (uid char now out : String) (s2 : PState) :
    (assembleContext profile memories summaries).length ≤ 4000 + truncMarker.length ∧
    (contextParts profile memories summaries = [] →
      assembleContext profile memories summaries = "") ∧
    (buildMemoryContext s uid char now = Except.ok (out, s2) →
      out.length ≤ 4000 + truncMarker.length) := by
  have hlen : ∀ (p : Option UserProfile) (m : List MemoryFact) (su : List ConvRecord),
      (assembleContext p m su).length ≤ 4000 + truncMarker.length := by
    intro p m su
    show (if (contextParts p m su).isEmpty = true then ""
      else if 4000 < ("\n\n".intercalate (contextParts p m su)).length then
        pySlice ("\n\n".intercalate (contextParts p m su)) 4000 ++ truncMarker
      else "\n\n".intercalate (contextParts p m su)).length ≤ 4000 + truncMarker.length
    split
    · simp
    · split
      · rw [String.length_append]
        have := pySlice_length_le (String.intercalate "\n\n" (contextParts p m su)) 4000
        omega
      · rename_i hle
        omega
  refine ⟨hlen profile memories summaries, ?_, ?_⟩
  · intro h
    simp [assembleContext, h]
  · intro h
    cases hg : getUserProfile s uid with
    | error e => simp [buildMemoryContext, hg] at h
    | ok prof =>
      simp only [buildMemoryContext, hg, Except.ok.injEq, Prod.mk.injEq] at h
      rcases h with ⟨h1, _⟩
      rw [← h1]
      exact hlen _ _ _

theorem c8_context_bounded_witness :
    (assembleContext none [] []).length ≤ 4000 + truncMarker.length ∧
    assembleContext none [] [] = "" :=
  ⟨(c8_context_bounded none [] [] emptyState "u1" "rumi" "t0" "" emptyState).1,
   (c8_context_bounded none [] [] emptyState "u1" "rumi" "t0" "" emptyState).2.1 rfl⟩

theorem lookupBlob_putBlob (blobs : List (String × LogData)) (k : String) (d : LogData) :
    lookupBlob (putBlob blobs k d) k = some d := by
  simp [lookupBlob, putBlob, List.find?]

theorem findConv_putConv (tbl : List ConvRecord) (r : ConvRecord) :
    findConv (putConv tbl r) r.user_id r.conversation_id = some r := by
  simp [findConv, putConv, List.find?]

theorem saveConversation_extraction_failed (s : PState) (uid char : String)
    (msgs : List Message) (ss now : String) (uuid : Nat → String)
    (h2 : ¬(msgs.length < 2)) (hs3 : s.s3Fail = false) (hcv : s.convFail = false) :
    saveConversation s uid char msgs ss now none uuid =
      { s with
        blobs := putBlob s.blobs ("chat-logs/" ++ uid ++ "/" ++ (char ++ "#" ++ ss) ++ ".json")
          { user_id := uid, character := char, session_start := ss, session_end := now
          , message_count := msgs.length, messages := msgs }
      , conversations := putConv s.conversations
          { user_id := uid, conversation_id := char ++ "#" ++ ss, character := char
          , session_start := ss, session_end := now, message_count := msgs.length
          , summary := "", keywords := [], user_sentiment := "neutral"
          , topics_discussed := []
          , s3_log_path := "chat-logs/" ++ uid ++ "/" ++ (char ++ "#" ++ ss) ++ ".json"
          , new_user_info := [] } } := by
  unfold saveConversation
  rw [if_neg h2, hs3, hcv]
  cases hm : s.memFail <;>
    simp [extractAllFromConversation, zeroedExtraction, buildMemItems, dictValTruthy, dictGet]

/-- Claim C7: when the extraction call fails (transport error or non-JSON
text) and the session has at least 2 turns, `save_conversation` still
writes the raw transcript and one conversation record with empty summary,
empty keywords and neutral sentiment, and writes zero memory facts. -/
theorem c7_malformed_extraction (s : PState) (uid char : String)
    (msgs : List Message) (ss now : String) (uuid : Nat → String)
    (h2 : 2 ≤ msgs.length) (hs3 : s.s3Fail = false) (hcv : s.convFail = false) :
    (∃ d, lookupBlob (saveConversation s uid char msgs ss now none uuid).blobs
        ("chat-logs/" ++ uid ++ "/" ++ (char ++ "#" ++ ss) ++ ".json") = some d ∧
      d.messages = msgs ∧ d.message_count = msgs.length) ∧
    (∃ c, findConv (saveConversation s uid char msgs ss now none uuid).conversations
        uid (char ++ "#" ++ ss) = some c ∧
      c.summary = "" ∧ c.keywords = [] ∧ c.user_sentiment = "neutral" ∧
      c.message_count = msgs.length) ∧
    (saveConversation s uid char msgs ss now none uuid).memories = s.memories := by
  have hguard : ¬(msgs.length < 2) := by omega
  rw [saveConversation_extraction_failed s uid char msgs ss now uuid hguard hs3 hcv]
  exact ⟨⟨{ user_id := uid, character := char, session_start := ss, session_end := now
          , message_count := msgs.length, messages := msgs },
          lookupBlob_putBlob _ _ _, rfl, rfl⟩,
         ⟨{ user_id := uid, conversation_id := char ++ "#" ++ ss, character := char
          , session_start := ss, session_end := now, message_count := msgs.length
          , summary := "", keywords := [], user_sentiment := "neutral"
          , topics_discussed := []
          , s3_log_path := "chat-logs/" ++ uid ++ "/" ++ (char ++ "#" ++ ss) ++ ".json"
          , new_user_info := [] },
          findConv_putConv s.conversations _, rfl, rfl, rfl, rfl⟩, rfl⟩

theorem c7_malformed_extraction_witness :
    (∃ d, lookupBlob (saveConversation emptyState "u1" "rumi" msgs2 "s0" "t3" none
        (fun _ => "aaaa")).blobs
        ("chat-logs/" ++ "u1" ++ "/" ++ ("rumi" ++ "#" ++ "s0") ++ ".json") = some d ∧
      d.messages = msgs2 ∧ d.message_count = msgs2.length) ∧
    (∃ c, findConv (saveConversation emptyState "u1" "rumi" msgs2 "s0" "t3" none
        (fun _ => "aaaa")).conversations "u1" ("rumi" ++ "#" ++ "s0") = some c ∧
      c.summary = "" ∧ c.keywords = [] ∧ c.user_sentiment = "neutral" ∧
      c.message_count = msgs2.length) ∧
    (saveConversation emptyState "u1" "rumi" msgs2 "s0" "t3" none
      (fun _ => "aaaa")).memories = emptyState.memories :=
  c7_malformed_extraction emptyState "u1" "rumi" msgs2 "s0" "t3" (fun _ => "aaaa")
    (by decide) rfl rfl

/-- Claim C3 (counterexample): two `save_conversation` calls with the same
user, character and session start (as the caller's every-6-messages
trigger produces) leave the record with message_count 3 where the first
call had written message_count 2 — the first-written ConversationRecord is
overwritten with different contents, so the immutability claim is false. -/
theorem c3_conversation_overwritten :
    ((findConv (saveConversation emptyState "u1" "rumi" msgs2 "s0" "t3" none
        (fun _ => "aaaa")).conversations "u1" "rumi#s0").map ConvRecord.message_count
      = some 2) ∧
    ((findConv (saveConversation
        (saveConversation emptyState "u1" "rumi" msgs2 "s0" "t3" none (fun _ => "aaaa"))
        "u1" "rumi" msgs3 "s0" "t9" none (fun _ => "bbbb")).conversations
        "u1" "rumi#s0").map ConvRecord.message_count = some 3) :=
  ⟨rfl, rfl⟩

theorem mem_putConv_of_ne (tbl : List ConvRecord) (r c : ConvRecord) (hc : c ∈ tbl)
    (hk : ¬(c.user_id = r.user_id ∧ c.conversation_id = r.conversation_id)) :
    c ∈ putConv tbl r := by
  refine List.mem_cons_of_mem _ (List.mem_filter.mpr ⟨hc, ?_⟩)
  simp only [Bool.not_eq_true', Bool.and_eq_false_iff, beq_eq_false_iff_ne, ne_eq]
  by_cases h1 : c.user_id = r.user_id
  · exact Or.inr (fun h2 => hk ⟨h1, h2⟩)
  · exact Or.inl h1

/-- Claim C3 (amended): `save_conversation` replaces only the record under
its own (user_id, character#session_start) key; every stored conversation
record under any other key survives every call unchanged. -/
theorem c3_other_keys_preserved (s : PState) (uid char : String) (msgs : List Message)
    (ss now : String) (adapter : Option ExtractionResult) (uuid : Nat → String)
    (c : ConvRecord) (hc : c ∈ s.conversations)
    (hk : ¬(c.user_id = uid ∧ c.conversation_id = char ++ "#" ++ ss)) :
    c ∈ (saveConversation s uid char msgs ss now adapter uuid).conversations := by
  unfold saveConversation
  by_cases hg : msgs.length < 2
  · rw [if_pos hg]; exact hc
  · rw [if_neg hg]
    by_cases hcv : s.convFail
    · simp [hcv, apply_ite PState.conversations, ite_self]
      exact hc
    · simp [hcv, apply_ite PState.conversations, ite_self]
      exact mem_putConv_of_ne _ _ _ hc hk

theorem c3_other_keys_preserved_witness :
    convA ∈ (saveConversation stA "u1" "rumi" msgs2 "s1" "t9" none
      (fun _ => "cccc")).conversations :=
  c3_other_keys_preserved stA "u1" "rumi" msgs2 "s1" "t9" none (fun _ => "cccc")
    convA (by decide) (by decide)

/-- Claim C2 (counterexample): an extraction whose memory carries
importance 7 is stored as-is by `save_conversation` (no clamping), so the
invariant that every stored MemoryFact has importance in [1,5] is false. -/
theorem c2_importance_out_of_range :
    ((saveConversation emptyState "u1" "rumi" msgs2 "s0" "t3" (some extImp7)
        (fun _ => "cafe")).memories.map MemoryFact.importance) = [7] ∧
    ¬((1:Int) ≤ 7 ∧ (7:Int) ≤ 5) :=
  ⟨rfl, by decide⟩

theorem mem_of_mem_putMem (tbl : List MemoryFact) (it f : MemoryFact)
    (h : f ∈ putMem tbl it) : f = it ∨ f ∈ tbl := by
  rcases List.mem_cons.mp h with h1 | h2
  · exact Or.inl h1
  · exact Or.inr (List.mem_filter.mp h2).1

theorem mem_foldl_putMem (items : List MemoryFact) (init : List MemoryFact)
    (f : MemoryFact) (h : f ∈ items.foldl putMem init) : f ∈ init ∨ f ∈ items := by
  induction items generalizing init with
  | nil => exact Or.inl h
  | cons it rest ih =>
    rcases ih (putMem init it) h with hin | hrest
    · rcases mem_of_mem_putMem init it f hin with h1 | h2
      · exact Or.inr (h1 ▸ List.mem_cons_self it rest)
      · exact Or.inl h2
    · exact Or.inr (List.mem_cons_of_mem it hrest)

theorem mem_buildMemItems (uid cid now : String) (uuid : Nat → String)
    (i : Nat) (ems : List ExtractedMemory) (f : MemoryFact)
    (h : f ∈ buildMemItems uid cid now uuid i ems) :
    ∃ em ∈ ems, ∃ j, f = mkMemItem uid cid now (uuid j) em := by
  induction ems generalizing i with
  | nil => simp [buildMemItems] at h
  | cons em rest ih =>
    rcases List.mem_cons.mp h with h1 | h2
    · exact ⟨em, List.mem_cons_self em rest, i, h1⟩
    · rcases ih (i + 1) h2 with ⟨em', hm', j, hj⟩
      exact ⟨em', List.mem_cons_of_mem em hm', j, hj⟩

/-- Claim C2 (amended): `save_conversation` stores each memory's
importance as `mem.get("importance", 3)` — an absent importance defaults
to 3 and a present value is stored unvalidated; hence every fact it writes
has importance in [1,5] exactly when every importance the extraction
supplies lies in [1,5]. -/
theorem c2_importance_range_amended (s : PState) (uid char : String)
    (msgs : List Message) (ss now : String) (adapter : Option ExtractionResult)
    (uuid : Nat → String) (f : MemoryFact)
    (himp : ∀ em ∈ (extractAllFromConversation adapter).memories.getD [],
      ∀ m, em.importance = some m → 1 ≤ m ∧ m ≤ 5)
    (hf : f ∈ (saveConversation s uid char msgs ss now adapter uuid).memories) :
    f ∈ s.memories ∨ (1 ≤ f.importance ∧ f.importance ≤ 5) := by
  unfold saveConversation at hf
  by_cases hg : msgs.length < 2
  · rw [if_pos hg] at hf; exact Or.inl hf
  · rw [if_neg hg] at hf
    by_cases hm : s.memFail
    · simp [hm, apply_ite PState.memories, ite_self] at hf
      exact Or.inl hf
    · simp [hm, apply_ite PState.memories, ite_self] at hf
      rcases mem_foldl_putMem _ _ _ hf with hin | hnew
      · exact Or.inl hin
      · rcases mem_buildMemItems _ _ _ _ _ _ _ hnew with ⟨em, hem, j, hj⟩
        right
        subst hj
        show 1 ≤ em.importance.getD 3 ∧ em.importance.getD 3 ≤ 5
        cases himpv : em.importance with
        | none => simp
        | some m =>
          simpa using himp em hem m himpv

theorem c2_importance_range_amended_witness :
    ({ user_id := "u1", memory_id := "global#cafe", character := "global"
     , category := "fact", content := "x", importance := 4
     , source_conversation := "rumi#s0", created_at := "t3", last_referenced := "t3"
     , reference_count := 0, active := true } : MemoryFact) ∈ emptyState.memories ∨
    (1 ≤ ({ user_id := "u1", memory_id := "global#cafe", character := "global"
          , category := "fact", content := "x", importance := 4
          , source_conversation := "rumi#s0", created_at := "t3", last_referenced := "t3"
          , reference_count := 0, active := true } : MemoryFact).importance ∧
      ({ user_id := "u1", memory_id := "global#cafe", character := "global"
       , category := "fact", content := "x", importance := 4
       , source_conversation := "rumi#s0", created_at := "t3", last_referenced := "t3"
       , reference_count := 0, active := true } : MemoryFact).importance ≤ 5) :=
  c2_importance_range_amended emptyState "u1" "rumi" msgs2 "s0" "t3" (some extImp4)
    (fun _ => "cafe") _
    (by
      intro em hem m hm
      simp [extractAllFromConversation, extImp4] at hem
      subst hem
      simp at hm
      omega)
    (by decide)

/-- Claim C4 (counterexample): a parsed judgment with `step_complete=true`
but a null nickname at step 0 increments the step to 1 while the profile's
nickname stays unchanged (empty), so the claim that the step's profile
field is always written when `step_complete` is true is false. -/
theorem c4_field_not_written :
    (processOnboardingResponse [p0] "u1" (some ext0) 0 "t1").1 = 1 ∧
    (processOnboardingResponse [p0] "u1" (some ext0) 0 "t1").2.map
      UserProfile.nickname = [""] ∧
    ext0.step_complete = true ∧ p0.nickname = "" :=
  ⟨rfl, rfl, rfl, rfl⟩

/-- Claim C4 (amended): in `process_onboarding_response` with a parsed
judgment and current step in 0..4, when `step_complete` is true the step
counter increments by exactly one but the step's profile field is written
only when the extraction carries a truthy value for it (a null/empty value
leaves the field unchanged while the step still advances); when
`step_complete` is false the step and the table are unchanged. -/
theorem c4_step_transition_amended (users : List UserProfile) (uid : String)
    (ext : OnbExtraction) (s : Int) (now : String) :
    (ext.step_complete = true → 0 ≤ s → s ≤ 4 →
      (processOnboardingResponse users uid (some ext) s now).1 = s + 1 ∧
      ∀ p ∈ users, p.user_id = uid →
        ∃ q ∈ (processOnboardingResponse users uid (some ext) s now).2,
          q.user_id = uid ∧ q.onboarding_step = s + 1 ∧
          q.nickname =
            (if s = 0 ∧ truthyStr ext.nickname = true
             then ext.nickname.getD p.nickname else p.nickname) ∧
          q.birthday =
            (if s = 1 ∧ truthyStr ext.birthday = true
             then ext.birthday.getD p.birthday else p.birthday) ∧
          q.interests =
            (if s = 2 ∧ truthyList ext.interests = true
             then ext.interests.getD p.interests else p.interests) ∧
          q.kpop_preferences =
            (if s = 3 ∧ truthyList ext.kpop_preferences = true
             then ext.kpop_preferences.getD p.kpop_preferences
             else p.kpop_preferences) ∧
          q.preferred_topics =
            (if s = 4 ∧ truthyList ext.preferred_topics = true
             then ext.preferred_topics.getD p.preferred_topics
             else p.preferred_topics)) ∧
    (ext.step_complete = false →
      processOnboardingResponse users uid (some ext) s now = (s, users)) := by
  constructor
  · intro hsc h0 h4
    have hs : s = 0 ∨ s = 1 ∨ s = 2 ∨ s = 3 ∨ s = 4 := by omega
    rcases hs with rfl | rfl | rfl | rfl | rfl
    · by_cases ht : truthyStr ext.nickname
      · constructor
        · simp [processOnboardingResponse, onboardingStepField, hsc, ht]
        · intro p hp hid
          simp only [processOnboardingResponse, onboardingStepField, hsc, Bool.not_true,
            Bool.false_eq_true, if_false, updateUserProfileTable, ProfileUpdates.isEmpty]
          simp only [ht, Bool.and_true, Bool.and_false]
          simp
          refine ⟨p, hp, ?_⟩
          simp [applyProfileUpdates, emptyUpdates, hid, ht]
      · constructor
        · simp [processOnboardingResponse, onboardingStepField, hsc, ht]
        · intro p hp hid
          simp only [processOnboardingResponse, onboardingStepField, hsc, Bool.not_true,
            Bool.false_eq_true, if_false, updateUserProfileTable, ProfileUpdates.isEmpty]
          simp only [ht, Bool.and_true, Bool.and_false]
          simp
          refine ⟨p, hp, ?_⟩
          simp [applyProfileUpdates, emptyUpdates, hid, ht]
    · by_cases ht : truthyStr ext.birthday
      · constructor
        · simp [processOnboardingResponse, onboardingStepField, hsc, ht]
        · intro p hp hid
          simp only [processOnboardingResponse, onboardingStepField, hsc, Bool.not_true,
            Bool.false_eq_true, if_false, updateUserProfileTable, ProfileUpdates.isEmpty]
          simp only [ht, Bool.and_true, Bool.and_false]
          simp
          refine ⟨p, hp, ?_⟩
          simp [applyProfileUpdates, emptyUpdates, hid, ht]
      · constructor
        · simp [processOnboardingResponse, onboardingStepField, hsc, ht]
        · intro p hp hid
          simp only [processOnboardingResponse, onboardingStepField, hsc, Bool.not_true,
            Bool.false_eq_true, if_false, updateUserProfileTable, ProfileUpdates.isEmpty]
          simp only [ht, Bool.and_true, Bool.and_false]
          simp
          refine ⟨p, hp, ?_⟩
          simp [applyProfileUpdates, emptyUpdates, hid, ht]
    · by_cases ht : truthyList ext.interests
      · constructor
        · simp [processOnboardingResponse, onboardingStepField, hsc, ht]
        · intro p hp hid
          simp only [processOnboardingResponse, onboardingStepField, hsc, Bool.not_true,
            Bool.false_eq_true, if_false, updateUserProfileTable, ProfileUpdates.isEmpty]
          simp only [ht, Bool.and_true, Bool.and_false]
          simp
          refine ⟨p, hp, ?_⟩
          simp [applyProfileUpdates, emptyUpdates, hid, ht]
      · constructor
        · simp [processOnboardingResponse, onboardingStepField, hsc, ht]
        · intro p hp hid
          simp only [processOnboardingResponse, onboardingStepField, hsc, Bool.not_true,
            Bool.false_eq_true, if_false, updateUserProfileTable, ProfileUpdates.isEmpty]
          simp only [ht, Bool.and_true, Bool.and_false]
          simp
          refine ⟨p, hp, ?_⟩
          simp [applyProfileUpdates, emptyUpdates, hid, ht]
    · by_cases ht : truthyList ext.kpop_preferences
      · constructor
        · simp [processOnboardingResponse, onboardingStepField, hsc, ht]
        · intro p hp hid
          simp only [processOnboardingResponse, onboardingStepField, hsc, Bool.not_true,
            Bool.false_eq_true, if_false, updateUserProfileTable, ProfileUpdates.isEmpty]
          simp only [ht, Bool.and_true, Bool.and_false]
          simp
          refine ⟨p, hp, ?_⟩
          simp [applyProfileUpdates, emptyUpdates, hid, ht]
      · constructor
        · simp [processOnboardingResponse, onboardingStepField, hsc, ht]
        · intro p hp hid
          simp only [processOnboardingResponse, onboardingStepField, hsc, Bool.not_true,
            Bool.false_eq_true, if_false, updateUserProfileTable, ProfileUpdates.isEmpty]
          simp only [ht, Bool.and_true, Bool.and_false]
          simp
          refine ⟨p, hp, ?_⟩
          simp [applyProfileUpdates, emptyUpdates, hid, ht]
    · by_cases ht : truthyList ext.preferred_topics
      · constructor
        · simp [processOnboardingResponse, onboardingStepField, hsc, ht]
        · intro p hp hid
          simp only [processOnboardingResponse, onboardingStepField, hsc, Bool.not_true,
            Bool.false_eq_true, if_false, updateUserProfileTable, ProfileUpdates.isEmpty]
          simp only [ht, Bool.and_true, Bool.and_false]
          simp
          refine ⟨p, hp, ?_⟩
          simp [applyProfileUpdates, emptyUpdates, hid, ht]
      · constructor
        · simp [processOnboardingResponse, onboardingStepField, hsc, ht]
        · intro p hp hid
          simp only [processOnboardingResponse, onboardingStepField, hsc, Bool.not_true,
            Bool.false_eq_true, if_false, updateUserProfileTable, ProfileUpdates.isEmpty]
          simp only [ht, Bool.and_true, Bool.and_false]
          simp
          refine ⟨p, hp, ?_⟩
          simp [applyProfileUpdates, emptyUpdates, hid, ht]
  · intro hsc
    cases hfield : onboardingStepField s with
    | none => simp [processOnboardingResponse, hfield]
    | some fldname => simp [processOnboardingResponse, hfield, hsc]

theorem c4_step_transition_amended_witness :
    (processOnboardingResponse [p0] "u1" (some extMina) 0 "t1").1 = 0 + 1 ∧
    ∃ q ∈ (processOnboardingResponse [p0] "u1" (some extMina) 0 "t1").2,
      q.user_id = "u1" ∧ q.onboarding_step = 0 + 1 ∧
      q.nickname =
        (if (0:Int) = 0 ∧ truthyStr extMina.nickname = true
         then extMina.nickname.getD p0.nickname else p0.nickname) ∧
      q.birthday =
        (if (0:Int) = 1 ∧ truthyStr extMina.birthday = true
         then extMina.birthday.getD p0.birthday else p0.birthday) ∧
      q.interests =
        (if (0:Int) = 2 ∧ truthyList extMina.interests = true
         then extMina.interests.getD p0.interests else p0.interests) ∧
      q.kpop_preferences =
        (if (0:Int) = 3 ∧ truthyList extMina.kpop_preferences = true
         then extMina.kpop_preferences.getD p0.kpop_preferences
         else p0.kpop_preferences) ∧
      q.preferred_topics =
        (if (0:Int) = 4 ∧ truthyList extMina.preferred_topics = true
         then extMina.preferred_topics.getD p0.preferred_topics
         else p0.preferred_topics) :=
  ⟨((c4_step_transition_amended [p0] "u1" extMina 0 "t1").1 rfl (by decide) (by decide)).1,
   ((c4_step_transition_amended [p0] "u1" extMina 0 "t1").1 rfl (by decide) (by decide)).2
     p0 (List.mem_singleton.mpr rfl) rfl⟩

theorem onboardingStepField_none_of_gt4 (s : Int) (h : 4 < s) :
    onboardingStepField s = none := by
  unfold onboardingStepField
  rw [if_neg (by omega), if_neg (by omega), if_neg (by omega),
    if_neg (by omega), if_neg (by omega)]

theorem processOnboarding_id_of_gt4 (users : List UserProfile) (uid : String)
    (j : Option OnbExtraction) (s : Int) (now : String) (h : 4 < s) :
    processOnboardingResponse users uid j s now = (s, users) := by
  unfold processOnboardingResponse
  rw [onboardingStepField_none_of_gt4 s h]

theorem processOnboarding_step_cases (users : List UserProfile) (uid : String)
    (j : Option OnbExtraction) (s : Int) (now : String) :
    (processOnboardingResponse users uid j s now).1 = s ∨
    (processOnboardingResponse users uid j s now).1 = s + 1 := by
  unfold processOnboardingResponse
  cases hfield : onboardingStepField s with
  | none => exact Or.inl rfl
  | some fld =>
    cases j with
    | none => exact Or.inl rfl
    | some ext =>
      by_cases hsc : ext.step_complete
      · simp [hsc]
      · simp [hsc]

theorem applyProfileUpdates_flag (p : UserProfile) (u : ProfileUpdates) (now : String)
    (hU : u.onboarding_complete = none ∨ u.onboarding_complete = some true)
    (hp : p.onboarding_complete = true) :
    (applyProfileUpdates p u now).onboarding_complete = true := by
  rcases hU with h | h <;> simp [applyProfileUpdates, h, hp]

theorem flagsPreserved_refl (users : List UserProfile) : flagsPreserved users users :=
  ⟨rfl, fun _ _ _ hp => hp⟩

theorem flagsPreserved_trans {a b c : List UserProfile}
    (h1 : flagsPreserved a b) (h2 : flagsPreserved b c) : flagsPreserved a c := by
  obtain ⟨l1, f1⟩ := h1
  obtain ⟨l2, f2⟩ := h2
  refine ⟨l2.trans l1, fun i h h' hp => ?_⟩
  exact f2 i (by omega) h' (f1 i h (by omega) hp)

theorem updateUserProfileTable_preserves (users : List UserProfile) (uid : String)
    (u : ProfileUpdates) (now : String)
    (hU : u.onboarding_complete = none ∨ u.onboarding_complete = some true) :
    flagsPreserved users (updateUserProfileTable users uid u now) := by
  unfold updateUserProfileTable
  by_cases he : u.isEmpty
  · rw [if_pos he]; exact flagsPreserved_refl users
  · rw [if_neg he]
    refine ⟨List.length_map users _, fun i h h' hp => ?_⟩
    have : (List.map (fun p => if p.user_id == uid then applyProfileUpdates p u now else p)
        users).get ⟨i, h'⟩ =
        (fun p => if p.user_id == uid then applyProfileUpdates p u now else p)
          (users.get ⟨i, h⟩) := by
      simp [List.get_eq_getElem, List.getElem_map]
    rw [this]
    show (if ((users.get ⟨i, h⟩).user_id == uid) = true
      then applyProfileUpdates (users.get ⟨i, h⟩) u now
      else users.get ⟨i, h⟩).onboarding_complete = true
    by_cases hb : (users.get ⟨i, h⟩).user_id == uid
    · rw [if_pos hb]
      exact applyProfileUpdates_flag _ _ _ hU hp
    · rw [if_neg hb]
      exact hp

theorem processOnboarding_preserves (users : List UserProfile) (uid : String)
    (j : Option OnbExtraction) (s : Int) (now : String) :
    flagsPreserved users (processOnboardingResponse users uid j s now).2 := by
  unfold processOnboardingResponse
  cases hfield : onboardingStepField s with
  | none => exact flagsPreserved_refl users
  | some fld =>
    cases j with
    | none => exact flagsPreserved_refl users
    | some ext =>
      by_cases hsc : ext.step_complete
      · simp only [hsc, Bool.not_true, Bool.false_eq_true, if_false]
        apply updateUserProfileTable_preserves
        by_cases hstep : 4 < s + 1
        · exact Or.inr (by simp [hstep])
        · exact Or.inl (by simp [hstep])
      · simp only [Bool.not_eq_true] at hsc
        simp [hsc]
        exact flagsPreserved_refl users

theorem runOnboarding_cons (users : List UserProfile) (uid : String)
    (j : Option OnbExtraction) (rest : List (Option OnbExtraction))
    (s : Int) (now : String) :
    runOnboarding users uid (j :: rest) s now =
      runOnboarding (processOnboardingResponse users uid j s now).2 uid rest
        (processOnboardingResponse users uid j s now).1 now := rfl

theorem processOnboarding_step_mono (users : List UserProfile) (uid : String)
    (j : Option OnbExtraction) (s : Int) (now : String) :
    s ≤ (processOnboardingResponse users uid j s now).1 := by
  rcases processOnboarding_step_cases users uid j s now with h | h <;> omega

theorem runOnboarding_step_mono (users : List UserProfile) (uid : String)
    (js : List (Option OnbExtraction)) (s : Int) (now : String) :
    s ≤ (runOnboarding users uid js s now).1 := by
  induction js generalizing users s with
  | nil => exact le_refl s
  | cons j rest ih =>
    rw [runOnboarding_cons]
    exact le_trans (processOnboarding_step_mono users uid j s now)
      (ih (processOnboardingResponse users uid j s now).2
        (processOnboardingResponse users uid j s now).1)

theorem runOnboarding_id_of_gt4 (users : List UserProfile) (uid : String)
    (js : List (Option OnbExtraction)) (s : Int) (now : String) (h : 4 < s) :
    runOnboarding users uid js s now = (s, users) := by
  induction js with
  | nil => rfl
  | cons j rest ih =>
    rw [runOnboarding_cons, processOnboarding_id_of_gt4 users uid j s now h]
    exact ih

theorem runOnboarding_preserves (users : List UserProfile) (uid : String)
    (js : List (Option OnbExtraction)) (s : Int) (now : String) :
    flagsPreserved users (runOnboarding users uid js s now).2 := by
  induction js generalizing users s with
  | nil => exact flagsPreserved_refl users
  | cons j rest ih =>
    rw [runOnboarding_cons]
    exact flagsPreserved_trans (processOnboarding_preserves users uid j s now)
      (ih (processOnboardingResponse users uid j s now).2
        (processOnboardingResponse users uid j s now).1)

theorem processOnboarding_terminal_entry (users : List UserProfile) (uid : String)
    (j : Option OnbExtraction) (s : Int) (now : String)
    (hle : s ≤ 4) (hgt : 4 < (processOnboardingResponse users uid j s now).1) :
    ∀ q ∈ (processOnboardingResponse users uid j s now).2, q.user_id = uid →
      q.onboarding_complete = true := by
  intro q hq hqid
  unfold processOnboardingResponse at hq hgt
  cases hfield : onboardingStepField s with
  | none =>
    rw [hfield] at hgt
    simp at hgt
    omega
  | some fld =>
    rw [hfield] at hq hgt
    cases j with
    | none => simp at hgt; omega
    | some ext =>
      by_cases hsc : ext.step_complete
      · simp only [hsc, Bool.not_true, Bool.false_eq_true, if_false] at hq hgt
        have hflag : (if 4 < s + 1 then some true else none) = some true := by
          rw [if_pos (show (4:Int) < s + 1 by omega)]
        rw [hflag] at hq
        unfold updateUserProfileTable at hq
        rw [if_neg (by simp [ProfileUpdates.isEmpty])] at hq
        rcases List.mem_map.mp hq with ⟨orig, horig, hq_eq⟩
        by_cases hb : (orig.user_id == uid) = true
        · rw [if_pos hb] at hq_eq
          subst hq_eq
          simp [applyProfileUpdates]
        · rw [if_neg hb] at hq_eq
          subst hq_eq
          exact absurd (beq_iff_eq.mpr hqid) hb
      · simp only [Bool.not_eq_true] at hsc
        simp [hsc] at hgt
        omega

/-- Claim C6: the onboarding step value is non-decreasing across any
sequence of `process_onboarding_response` calls; a call with a step
beyond 4 dispatches no step logic and changes nothing (so once the step
exceeds 4 it never changes again); a row's `onboarding_complete` flag is
never reset by any sequence of calls; and the transition that carries the
step past 4 sets `onboarding_complete = true` on the user's row. -/
theorem c6_onboarding_monotone (users : List UserProfile) (uid : String)
    (js : List (Option OnbExtraction)) (j : Option OnbExtraction)
    (s : Int) (now : String) :
    (s ≤ (processOnboardingResponse users uid j s now).1) ∧
    (s ≤ (runOnboarding users uid js s now).1) ∧
    (4 < s → processOnboardingResponse users uid j s now = (s, users)) ∧
    (4 < s → runOnboarding users uid js s now = (s, users)) ∧
    flagsPreserved users (runOnboarding users uid js s now).2 ∧
    (s ≤ 4 → 4 < (processOnboardingResponse users uid j s now).1 →
      ∀ q ∈ (processOnboardingResponse users uid j s now).2, q.user_id = uid →
        q.onboarding_complete = true) :=
  ⟨processOnboarding_step_mono users uid j s now,
   runOnboarding_step_mono users uid js s now,
   fun h => processOnboarding_id_of_gt4 users uid j s now h,
   fun h => runOnboarding_id_of_gt4 users uid js s now h,
   runOnboarding_preserves users uid js s now,
   fun hle hgt => processOnboarding_terminal_entry users uid j s now hle hgt⟩

theorem c6_onboarding_monotone_witness :
    processOnboardingResponse [p0] "u1" (some ext0) 5 "t1" = (5, [p0]) ∧
    runOnboarding [p0] "u1" [some ext0] 5 "t1" = (5, [p0]) ∧
    flagsPreserved [p0] (runOnboarding [p0] "u1" [some ext0] 5 "t1").2 :=
  ⟨(c6_onboarding_monotone [p0] "u1" [some ext0] (some ext0) 5 "t1").2.2.1 (by decide),
   (c6_onboarding_monotone [p0] "u1" [some ext0] (some ext0) 5 "t1").2.2.2.1 (by decide),
   (c6_onboarding_monotone [p0] "u1" [some ext0] (some ext0) 5 "t1").2.2.2.2.1⟩

theorem refUpdate_eq_map (tbl : List MemoryFact) (uid mid now : String) :
    refUpdate tbl uid mid now = tbl.map (refStep uid now mid) := rfl

theorem foldl_refUpdate_eq_map (uid now : String) (top : List MemoryFact)
    (tbl : List MemoryFact) :
    top.foldl (fun t m => refUpdate t uid m.memory_id now) tbl =
      tbl.map (fun f => top.foldl (fun x m => refStep uid now m.memory_id x) f) := by
  induction top generalizing tbl with
  | nil => simp
  | cons m rest ih =>
    rw [List.foldl_cons, ih, refUpdate_eq_map, List.map_map]
    rfl

theorem refStep_ne (uid now mid : String) (f : MemoryFact)
    (h : f.memory_id ≠ mid) : refStep uid now mid f = f := by
  unfold refStep
  rw [if_neg]
  intro hc
  exact h (beq_iff_eq.mp (Bool.and_elim_right hc))

theorem refStep_fold_not_mem (uid now : String) (top : List MemoryFact)
    (f : MemoryFact) (h : f.memory_id ∉ top.map MemoryFact.memory_id) :
    top.foldl (fun x m => refStep uid now m.memory_id x) f = f := by
  induction top with
  | nil => rfl
  | cons m rest ih =>
    rw [List.map_cons, List.mem_cons] at h
    push_neg at h
    rw [List.foldl_cons, refStep_ne uid now m.memory_id f h.1]
    exact ih h.2

theorem refStep_fold_mem (uid now : String) (top : List MemoryFact) (f : MemoryFact)
    (hnd : (top.map MemoryFact.memory_id).Nodup)
    (hin : f.memory_id ∈ top.map MemoryFact.memory_id) (huid : f.user_id = uid) :
    top.foldl (fun x m => refStep uid now m.memory_id x) f = bumpRef now f := by
  induction top with
  | nil => simp at hin
  | cons m rest ih =>
    rw [List.map_cons] at hnd hin
    rw [List.foldl_cons]
    by_cases he : f.memory_id = m.memory_id
    · have hstep : refStep uid now m.memory_id f = bumpRef now f := by
        unfold refStep
        rw [if_pos]
        rw [Bool.and_eq_true, beq_iff_eq, beq_iff_eq]
        exact ⟨huid, he⟩
      rw [hstep]
      apply refStep_fold_not_mem
      show (bumpRef now f).memory_id ∉ rest.map MemoryFact.memory_id
      have hb : (bumpRef now f).memory_id = f.memory_id := rfl
      rw [hb, he]
      exact (List.nodup_cons.mp hnd).1
    · rw [refStep_ne uid now m.memory_id f he]
      refine ih (List.nodup_cons.mp hnd).2 ?_
      rcases List.mem_cons.mp hin with h1 | h2
      · exact absurd h1 he
      · exact h2

theorem fold_refUpdate_char (tbl top : List MemoryFact) (uid now : String)
    (hnd_top : (top.map MemoryFact.memory_id).Nodup)
    (hnd_tbl : (tbl.map MemoryFact.memory_id).Nodup)
    (hsub : ∀ m ∈ top, m ∈ tbl ∧ m.user_id = uid) :
    top.foldl (fun t m => refUpdate t uid m.memory_id now) tbl =
      tbl.map (fun f =>
        if f.memory_id ∈ top.map MemoryFact.memory_id then bumpRef now f else f) := by
  rw [foldl_refUpdate_eq_map]
  apply List.map_congr_left
  intro f hf
  by_cases hin : f.memory_id ∈ top.map MemoryFact.memory_id
  · rw [if_pos hin]
    apply refStep_fold_mem uid now top f hnd_top hin
    rcases List.mem_map.mp hin with ⟨m, hm, hid⟩
    rcases hsub m hm with ⟨hmt, hmu⟩
    have hmf : m = f := List.inj_on_of_nodup_map hnd_tbl hmt hf hid
    rw [← hmf]
    exact hmu
  · rw [if_neg hin]
    exact refStep_fold_not_mem uid now top f hin

theorem getTopMemories_fst (s : PState) (uid char : String) (limit : Nat)
    (now : String) (hmf : s.memFail = false) :
    (getTopMemories s uid char limit now).1 =
      ((s.memories.filter (fun m => m.user_id == uid && m.character == "global" && m.active)
        ++ s.memories.filter (fun m => m.user_id == uid && m.character == char && m.active)).mergeSort
        (fun a b => decide (b.importance ≤ a.importance))).take limit := by
  unfold getTopMemories
  rw [if_neg (by rw [hmf]; exact Bool.false_ne_true)]

theorem getTopMemories_snd_memories (s : PState) (uid char : String) (limit : Nat)
    (now : String) (hmf : s.memFail = false) :
    (getTopMemories s uid char limit now).2.memories =
      (((s.memories.filter (fun m => m.user_id == uid && m.character == "global" && m.active)
        ++ s.memories.filter (fun m => m.user_id == uid && m.character == char && m.active)).mergeSort
        (fun a b => decide (b.importance ≤ a.importance))).take limit).foldl
        (fun t m => refUpdate t uid m.memory_id now) s.memories := by
  unfold getTopMemories
  rw [if_neg (by rw [hmf]; exact Bool.false_ne_true)]

/-- Claim C9: the ranker's reference-metadata side effect applies exactly
to the facts it returns: each returned fact (at most `limit` of them) has
its reference count incremented and last-referenced timestamp set in the
store, and every stored fact below the truncation cutoff is left entirely
unchanged. -/
theorem c9_ranker_frame_effect (s : PState) (uid char : String) (limit : Nat)
    (now : String) (hmf : s.memFail = false)
    (hnd : (s.memories.map MemoryFact.memory_id).Nodup)
    (hchar : char ≠ "global") :
    (getTopMemories s uid char limit now).1.length ≤ limit ∧
    (getTopMemories s uid char limit now).2.memories =
      s.memories.map (fun f =>
        if f.memory_id ∈ (getTopMemories s uid char limit now).1.map MemoryFact.memory_id
        then bumpRef now f else f) := by
  rw [getTopMemories_fst s uid char limit now hmf,
    getTopMemories_snd_memories s uid char limit now hmf]
  constructor
  · rw [List.length_take]
    exact Nat.min_le_left _ _
  · apply fold_refUpdate_char
    · -- Nodup of the returned slice's memory ids
      have hg : ((s.memories.filter
          (fun m => m.user_id == uid && m.character == "global" && m.active)).map
          MemoryFact.memory_id).Nodup :=
        List.Nodup.sublist (List.Sublist.map _ (List.filter_sublist _)) hnd
      have hc : ((s.memories.filter
          (fun m => m.user_id == uid && m.character == char && m.active)).map
          MemoryFact.memory_id).Nodup :=
        List.Nodup.sublist (List.Sublist.map _ (List.filter_sublist _)) hnd
      have hdisj : ((s.memories.filter
          (fun m => m.user_id == uid && m.character == "global" && m.active)).map
          MemoryFact.memory_id).Disjoint
          ((s.memories.filter
            (fun m => m.user_id == uid && m.character == char && m.active)).map
            MemoryFact.memory_id) := by
        intro x hxg hxc
        rcases List.mem_map.mp hxg with ⟨mg, hmg, hmgid⟩
        rcases List.mem_map.mp hxc with ⟨mc, hmc, hmcid⟩
        rcases List.mem_filter.mp hmg with ⟨hmg_mem, hmg_pred⟩
        rcases List.mem_filter.mp hmc with ⟨hmc_mem, hmc_pred⟩
        have heq : mg = mc := by
          apply List.inj_on_of_nodup_map hnd hmg_mem hmc_mem
          rw [hmgid, hmcid]
        have h1 : mg.character = "global" := by
          have := Bool.and_elim_right (Bool.and_elim_left hmg_pred)
          exact beq_iff_eq.mp this
        have h2 : mc.character = char := by
          have := Bool.and_elim_right (Bool.and_elim_left hmc_pred)
          exact beq_iff_eq.mp this
        rw [heq, h2] at h1
        exact hchar h1
      have happ : (((s.memories.filter
          (fun m => m.user_id == uid && m.character == "global" && m.active))
          ++ (s.memories.filter
            (fun m => m.user_id == uid && m.character == char && m.active))).map
          MemoryFact.memory_id).Nodup := by
        rw [List.map_append]
        exact List.nodup_append.mpr ⟨hg, hc, hdisj⟩
      have hsort : ((((s.memories.filter
          (fun m => m.user_id == uid && m.character == "global" && m.active))
          ++ (s.memories.filter
            (fun m => m.user_id == uid && m.character == char && m.active))).mergeSort
          (fun a b => decide (b.importance ≤ a.importance))).map
          MemoryFact.memory_id).Nodup := by
        have hperm := List.mergeSort_perm
          ((s.memories.filter
            (fun m => m.user_id == uid && m.character == "global" && m.active))
            ++ (s.memories.filter
              (fun m => m.user_id == uid && m.character == char && m.active)))
          (fun a b => decide (b.importance ≤ a.importance))
        exact ((hperm.map MemoryFact.memory_id).symm).nodup happ
      rw [List.map_take]
      exact List.Nodup.sublist (List.take_sublist _ _) hsort
    · exact hnd
    · intro m hm
      have hm1 : m ∈ ((s.memories.filter
          (fun q => q.user_id == uid && q.character == "global" && q.active))
          ++ (s.memories.filter
            (fun q => q.user_id == uid && q.character == char && q.active))) := by
        have hms := List.Sublist.mem hm (List.take_sublist _ _)
        exact (List.mergeSort_perm _ _).mem_iff.mp hms
      rcases List.mem_append.mp hm1 with h | h
      · rcases List.mem_filter.mp h with ⟨hmem, hpred⟩
        refine ⟨hmem, ?_⟩
        exact beq_iff_eq.mp (Bool.and_elim_left (Bool.and_elim_left hpred))
      · rcases List.mem_filter.mp h with ⟨hmem, hpred⟩
        refine ⟨hmem, ?_⟩
        exact beq_iff_eq.mp (Bool.and_elim_left (Bool.and_elim_left hpred))

theorem c9_ranker_frame_effect_witness :
    (getTopMemories st9 "u1" "rumi" 15 "t5").1.length ≤ 15 ∧
    (getTopMemories st9 "u1" "rumi" 15 "t5").2.memories =
      st9.memories.map (fun f =>
        if f.memory_id ∈ (getTopMemories st9 "u1" "rumi" 15 "t5").1.map
          MemoryFact.memory_id
        then bumpRef "t5" f else f) :=
  c9_ranker_frame_effect st9 "u1" "rumi" 15 "t5" rfl (by decide) (by decide)
